import Mathlib

/-!
Verification of the Gmail fetch-and-cache subsystem of the
google-api-wrapper repository (files googleapiwrapper/gmail_cache.py,
googleapiwrapper/gmail_api.py, googleapiwrapper/gmail_domain.py,
googleapiwrapper/utils.py).

The Python code is shallowly embedded: Python dicts become association
lists keyed by strings (insertion order preserved, inserting an existing
key updates it in place), Python sets become lists whose membership is
what matters, raising functions return Except, and the filesystem and
other external collaborators (pythoncommons FileUtils / JsonFileUtils,
hashing) are passed in as explicit oracle functions.
-/

set_option autoImplicit false

namespace GmailSpec

/-! ## Python dict model -/

/-- A Python dict keyed by strings: an association list in insertion order,
keys unique by construction of the operations below. -/
abbrev Dict (β : Type) := List (String × β)

/-- Python `k in d`. -/
def dictContains {β : Type} : Dict β → String → Bool
  | [], _ => false
  | p :: ps, k => p.1 == k || dictContains ps k

/-- Python `d[k]` as an optional lookup (first matching entry). -/
def dictGet {β : Type} : Dict β → String → Option β
  | [], _ => none
  | p :: ps, k => if p.1 == k then some p.2 else dictGet ps k

/-- Python `d[k] = v`: update the existing entry in place, else append. -/
def dictUpsert {β : Type} : Dict β → String → β → Dict β
  | [], k, v => [(k, v)]
  | p :: ps, k, v => if p.1 == k then (k, v) :: ps else p :: dictUpsert ps k v

/-- Python `del d[k]`. -/
def dictRemove {β : Type} : Dict β → String → Dict β
  | [], _ => []
  | p :: ps, k => if p.1 == k then dictRemove ps k else p :: dictRemove ps k

/-- Python `d.keys()`. -/
def dictKeys {β : Type} (d : Dict β) : List String :=
  d.map Prod.fst

/-- Python `d.update(entries)`: upsert each entry in order. -/
def dictUpdateWith {β : Type} (d : Dict β) (entries : List (String × β)) : Dict β :=
  entries.foldl (fun acc p => dictUpsert acc p.1 p.2) d

theorem dictContains_upsert {β : Type} (d : Dict β) (a k : String) (v : β) :
    dictContains (dictUpsert d a v) k = (dictContains d k || a == k) := by
  induction d with
  | nil => simp [dictUpsert, dictContains]
  | cons p ps ih =>
    by_cases h : p.1 = a
    · simp only [dictUpsert, dictContains, h, beq_self_eq_true, if_true]
      cases hak : a == k <;> cases hc : dictContains ps k <;> simp [dictContains, hak, hc]
    · have hb : (p.1 == a) = false := by simpa using h
      simp [dictUpsert, dictContains, hb, ih, Bool.or_assoc]

theorem dictGet_upsert_self {β : Type} (d : Dict β) (a : String) (v : β) :
    dictGet (dictUpsert d a v) a = some v := by
  induction d with
  | nil => simp [dictUpsert, dictGet]
  | cons p ps ih =>
    by_cases h : p.1 = a
    · simp [dictUpsert, dictGet, h]
    · have hb : (p.1 == a) = false := by simpa using h
      simp [dictUpsert, dictGet, hb, ih]

theorem dictGet_upsert_other {β : Type} (d : Dict β) (a k : String) (v : β) (hk : k ≠ a) :
    dictGet (dictUpsert d a v) k = dictGet d k := by
  have hak : (a == k) = false := by simpa using fun h => hk h.symm
  induction d with
  | nil => simp [dictUpsert, dictGet, hak]
  | cons p ps ih =>
    by_cases h : p.1 = a
    · have hpk : (p.1 == k) = false := by
        simpa [h] using hak
      simp [dictUpsert, dictGet, h, hak, hpk]
    · have hb : (p.1 == a) = false := by simpa using h
      cases hpk : p.1 == k <;> simp [dictUpsert, dictGet, hb, hpk, ih]

theorem dictGet_isSome_iff_contains {β : Type} (d : Dict β) (k : String) :
    (dictGet d k).isSome = true ↔ dictContains d k = true := by
  induction d with
  | nil => simp [dictGet, dictContains]
  | cons p ps ih =>
    cases hp : p.1 == k <;> simp [dictGet, dictContains, hp, ih]

theorem dictContains_remove {β : Type} (d : Dict β) (a k : String) :
    dictContains (dictRemove d a) k = (dictContains d k && !(k == a)) := by
  induction d with
  | nil => simp [dictRemove, dictContains]
  | cons p ps ih =>
    by_cases h : p.1 = a
    · have hka : ∀ b : Bool, (p.1 == k) = b → b = true → (k == a) = true := by
        intro b hb htrue
        subst htrue
        have : p.1 = k := by simpa using hb
        simp [← this, h]
      cases hpk : p.1 == k
      · have hak : (a == k) = false := h ▸ hpk
        simp [dictRemove, dictContains, h, hpk, ih, hak]
      · have : (k == a) = true := hka true hpk rfl
        simp [dictRemove, dictContains, h, hpk, ih, this]
    · have hb : (p.1 == a) = false := by simpa using h
      cases hpk : p.1 == k
      · simp [dictRemove, dictContains, hb, hpk, ih]
      · have hk : p.1 = k := by simpa using hpk
        have : (k == a) = false := by simpa [hk] using h
        simp [dictRemove, dictContains, hb, hpk, ih, this]

theorem dictContains_updateWith {β : Type} (entries : List (String × β)) (d : Dict β)
    (k : String) :
    dictContains (dictUpdateWith d entries) k
      = (dictContains d k || entries.any (fun p => p.1 == k)) := by
  induction entries generalizing d with
  | nil => simp [dictUpdateWith]
  | cons e es ih =>
    simp only [dictUpdateWith, List.foldl_cons, List.any_cons] at *
    rw [ih, dictContains_upsert, Bool.or_assoc]

/-! ## Cache state model (gmail_cache.py: ItemCacheState, CachedItem, CacheMeta,
CacheMetrics, CacheResultItems) -/

/-- gmail_cache.py `ItemCacheState`. -/
inductive ItemCacheState where
  | NOT_CACHED
  | CACHE_LEVEL_NOT_DETERMINED
  | FULLY_CACHED
  | PARTIALLY_CACHED
deriving DecidableEq

/-- gmail_cache.py `CachedItem`; `data` is `Option` because Python stores `None`
for items without data. -/
structure CachedItem (α : Type) where
  id : String
  data : Option α
  cache_state : ItemCacheState
deriving DecidableEq

/-- gmail_cache.py `CacheMeta` (type name strings used in log/error messages). -/
structure CacheMeta where
  type : String
  type_plural : String
deriving DecidableEq

/-- gmail_cache.py `CacheMetrics` (read/write accounting; only feeds logging). -/
structure CacheMetrics where
  items_written : Nat
  bytes_written : Nat
  items_read : Nat
  bytes_read : Nat
deriving DecidableEq

def CacheMetrics.create_for_read (items_read bytes_read : Nat) : CacheMetrics :=
  ⟨0, 0, items_read, bytes_read⟩

def CacheMetrics.create_for_write (items_written bytes_written : Nat) : CacheMetrics :=
  ⟨items_written, bytes_written, 0, 0⟩

/-- gmail_cache.py `CacheResultItems.__init__`: the requested id list plus the
four state buckets, each a Python dict from item id to `CachedItem`. -/
structure CacheResultItems (α : Type) where
  meta : CacheMeta
  item_ids : List String
  not_cached_items : Dict (CachedItem α)
  partially_cached_items : Dict (CachedItem α)
  not_yet_determined_items : Dict (CachedItem α)
  fully_cached_items : Dict (CachedItem α)
deriving DecidableEq

/-- `CacheResultItems(item_ids, cache_type, cache_type_plural)`; a falsy
plural defaults to `cache_type + "s"`. -/
def mkCacheResultItems {α : Type} (item_ids : List String) (cache_type : String)
    (cache_type_plural : Option String) : CacheResultItems α :=
  let plural := match cache_type_plural with
    | none => cache_type ++ "s"
    | some "" => cache_type ++ "s"
    | some s => s
  { meta := ⟨cache_type, plural⟩
    item_ids := item_ids
    not_cached_items := []
    partially_cached_items := []
    not_yet_determined_items := []
    fully_cached_items := [] }

/-- `CacheResultItems._create_list`: id -> CachedItem(id, None, state). -/
def create_list {α : Type} (item_ids : List String) (state : ItemCacheState) :
    List (String × CachedItem α) :=
  item_ids.map (fun i => (i, ⟨i, none, state⟩))

/-- `CacheResultItems.add_not_cached`. -/
def add_not_cached {α : Type} (c : CacheResultItems α) (item_ids : List String) :
    CacheResultItems α :=
  let updated := dictUpdateWith c.not_cached_items (create_list item_ids ItemCacheState.NOT_CACHED)
  { c with not_cached_items := updated }

/-- `CacheResultItems.add_partially_cached`. -/
def add_partially_cached {α : Type} (c : CacheResultItems α) (item_ids : List String) :
    CacheResultItems α :=
  let updated := dictUpdateWith c.partially_cached_items (create_list item_ids ItemCacheState.PARTIALLY_CACHED)
  { c with partially_cached_items := updated }

/-- `CacheResultItems.add_not_yet_determined`. -/
def add_not_yet_determined {α : Type} (c : CacheResultItems α) (item_ids : List String) :
    CacheResultItems α :=
  let updated := dictUpdateWith c.not_yet_determined_items (create_list item_ids ItemCacheState.CACHE_LEVEL_NOT_DETERMINED)
  { c with not_yet_determined_items := updated }

/-- `CacheResultItems.add_fully_cached(item_ids_with_data)`: stores the supplied
data per id (the data itself may be Python `None`, hence `Option α`). -/
def add_fully_cached {α : Type} (c : CacheResultItems α)
    (item_ids_with_data : List (String × Option α)) : CacheResultItems α :=
  let updated := item_ids_with_data.foldl
    (fun acc p => dictUpsert acc p.1 ⟨p.1, p.2, ItemCacheState.FULLY_CACHED⟩)
    c.fully_cached_items
  { c with fully_cached_items := updated }

/-- `CacheResultItems.is_fully_cached`: membership in the fully-cached bucket. -/
def is_fully_cached {α : Type} (c : CacheResultItems α) (item_id : String) : Bool :=
  dictContains c.fully_cached_items item_id

/-- `CacheResultItems.get_data_for_item`: raises for a non-fully-cached id. -/
def get_data_for_item {α : Type} (c : CacheResultItems α) (item_id : String) :
    Except String (Option α) :=
  match dictGet c.fully_cached_items item_id with
  | some item => Except.ok item.data
  | none => Except.error ("Cant get data from a non-fully cached item. Item ID: " ++ item_id)

/-- `CacheResultItems._get_item_cache_status`: raises when the id is in neither
or both of the not-cached / not-yet-determined buckets. -/
def get_item_cache_status {α : Type} (c : CacheResultItems α) (item_id : String) :
    Except String ItemCacheState :=
  let not_yet_determined := dictContains c.not_yet_determined_items item_id
  let not_cached := dictContains c.not_cached_items item_id
  if !(not_cached || not_yet_determined) then
    Except.error ("Item with ID " ++ item_id ++
      " should be in the collection of items with not yet determined or not cached state" ++
      " but it was not in any of these. This could be a programming error!")
  else if not_cached && not_yet_determined then
    Except.error ("Item with ID " ++ item_id ++
      " is in the collection of items with not yet determined AND not cached state" ++
      " but should be only one of these. This is a programming error!")
  else if not_cached then Except.ok ItemCacheState.NOT_CACHED
  else Except.ok ItemCacheState.CACHE_LEVEL_NOT_DETERMINED

/-- `CacheResultItems._remove_from_previous_collection`. -/
def remove_from_previous_collection {α : Type} (c : CacheResultItems α) (item_id : String)
    (item_state : ItemCacheState) : CacheResultItems α :=
  match item_state with
  | ItemCacheState.NOT_CACHED =>
      { c with not_cached_items := dictRemove c.not_cached_items item_id }
  | ItemCacheState.CACHE_LEVEL_NOT_DETERMINED =>
      { c with not_yet_determined_items := dictRemove c.not_yet_determined_items item_id }
  | _ => c

/-- `CacheResultItems.mark_partially_cached`: status check, insert into the
partially-cached bucket, then remove from the previous bucket. -/
def mark_partially_cached {α : Type} (c : CacheResultItems α) (item_id : String) :
    Except String (CacheResultItems α) :=
  match get_item_cache_status c item_id with
  | Except.error e => Except.error e
  | Except.ok item_state =>
      let inserted := dictUpsert c.partially_cached_items item_id ⟨item_id, none, ItemCacheState.PARTIALLY_CACHED⟩
      let c1 := { c with partially_cached_items := inserted }
      Except.ok (remove_from_previous_collection c1 item_id item_state)

/-- `CacheResultItems.mark_fully_cached`: status check, insert into the
fully-cached bucket with the supplied data, then remove from the previous bucket. -/
def mark_fully_cached {α : Type} (c : CacheResultItems α) (item_id : String)
    (item_data : Option α) : Except String (CacheResultItems α) :=
  match get_item_cache_status c item_id with
  | Except.error e => Except.error e
  | Except.ok item_state =>
      let inserted := dictUpsert c.fully_cached_items item_id ⟨item_id, item_data, ItemCacheState.FULLY_CACHED⟩
      let c1 := { c with fully_cached_items := inserted }
      Except.ok (remove_from_previous_collection c1 item_id item_state)

def exceptIsOk {ε β : Type} : Except ε β → Bool
  | Except.ok _ => true
  | Except.error _ => false

/-! ## Behavior of the mark transitions -/

theorem get_item_cache_status_of_nc {α : Type} (c : CacheResultItems α) (t : String)
    (hnc : dictContains c.not_cached_items t = true)
    (hnyd : dictContains c.not_yet_determined_items t = false) :
    get_item_cache_status c t = Except.ok ItemCacheState.NOT_CACHED := by
  simp [get_item_cache_status, hnc, hnyd]

theorem get_item_cache_status_of_nyd {α : Type} (c : CacheResultItems α) (t : String)
    (hnc : dictContains c.not_cached_items t = false)
    (hnyd : dictContains c.not_yet_determined_items t = true) :
    get_item_cache_status c t = Except.ok ItemCacheState.CACHE_LEVEL_NOT_DETERMINED := by
  simp [get_item_cache_status, hnc, hnyd]

theorem get_item_cache_status_of_neither {α : Type} (c : CacheResultItems α) (t : String)
    (hnc : dictContains c.not_cached_items t = false)
    (hnyd : dictContains c.not_yet_determined_items t = false) :
    ∃ e, get_item_cache_status c t = Except.error e := by
  simp [get_item_cache_status, hnc, hnyd]

theorem get_item_cache_status_of_both {α : Type} (c : CacheResultItems α) (t : String)
    (hnc : dictContains c.not_cached_items t = true)
    (hnyd : dictContains c.not_yet_determined_items t = true) :
    ∃ e, get_item_cache_status c t = Except.error e := by
  simp [get_item_cache_status, hnc, hnyd]

theorem mark_partially_cached_of_nc {α : Type} (c : CacheResultItems α) (t : String)
    (hnc : dictContains c.not_cached_items t = true)
    (hnyd : dictContains c.not_yet_determined_items t = false) :
    mark_partially_cached c t = Except.ok
      { c with
        partially_cached_items :=
          dictUpsert c.partially_cached_items t ⟨t, none, ItemCacheState.PARTIALLY_CACHED⟩
        not_cached_items := dictRemove c.not_cached_items t } := by
  simp [mark_partially_cached, get_item_cache_status_of_nc c t hnc hnyd,
    remove_from_previous_collection]

theorem mark_partially_cached_of_nyd {α : Type} (c : CacheResultItems α) (t : String)
    (hnc : dictContains c.not_cached_items t = false)
    (hnyd : dictContains c.not_yet_determined_items t = true) :
    mark_partially_cached c t = Except.ok
      { c with
        partially_cached_items :=
          dictUpsert c.partially_cached_items t ⟨t, none, ItemCacheState.PARTIALLY_CACHED⟩
        not_yet_determined_items := dictRemove c.not_yet_determined_items t } := by
  simp [mark_partially_cached, get_item_cache_status_of_nyd c t hnc hnyd,
    remove_from_previous_collection]

theorem mark_fully_cached_of_nc {α : Type} (c : CacheResultItems α) (t : String)
    (d : Option α)
    (hnc : dictContains c.not_cached_items t = true)
    (hnyd : dictContains c.not_yet_determined_items t = false) :
    mark_fully_cached c t d = Except.ok
      { c with
        fully_cached_items :=
          dictUpsert c.fully_cached_items t ⟨t, d, ItemCacheState.FULLY_CACHED⟩
        not_cached_items := dictRemove c.not_cached_items t } := by
  simp [mark_fully_cached, get_item_cache_status_of_nc c t hnc hnyd,
    remove_from_previous_collection]

theorem mark_fully_cached_of_nyd {α : Type} (c : CacheResultItems α) (t : String)
    (d : Option α)
    (hnc : dictContains c.not_cached_items t = false)
    (hnyd : dictContains c.not_yet_determined_items t = true) :
    mark_fully_cached c t d = Except.ok
      { c with
        fully_cached_items :=
          dictUpsert c.fully_cached_items t ⟨t, d, ItemCacheState.FULLY_CACHED⟩
        not_yet_determined_items := dictRemove c.not_yet_determined_items t } := by
  simp [mark_fully_cached, get_item_cache_status_of_nyd c t hnc hnyd,
    remove_from_previous_collection]

theorem mark_partially_cached_error {α : Type} (c : CacheResultItems α) (t : String)
    (h : dictContains c.not_cached_items t = dictContains c.not_yet_determined_items t) :
    ∃ e, mark_partially_cached c t = Except.error e := by
  cases hnc : dictContains c.not_cached_items t with
  | false =>
    obtain ⟨e, he⟩ := get_item_cache_status_of_neither c t hnc (by rw [← h, hnc])
    exact ⟨e, by simp [mark_partially_cached, he]⟩
  | true =>
    obtain ⟨e, he⟩ := get_item_cache_status_of_both c t hnc (by rw [← h, hnc])
    exact ⟨e, by simp [mark_partially_cached, he]⟩

theorem mark_fully_cached_error {α : Type} (c : CacheResultItems α) (t : String)
    (d : Option α)
    (h : dictContains c.not_cached_items t = dictContains c.not_yet_determined_items t) :
    ∃ e, mark_fully_cached c t d = Except.error e := by
  cases hnc : dictContains c.not_cached_items t with
  | false =>
    obtain ⟨e, he⟩ := get_item_cache_status_of_neither c t hnc (by rw [← h, hnc])
    exact ⟨e, by simp [mark_fully_cached, he]⟩
  | true =>
    obtain ⟨e, he⟩ := get_item_cache_status_of_both c t hnc (by rw [← h, hnc])
    exact ⟨e, by simp [mark_fully_cached, he]⟩

/-- C4: `mark_partially_cached(id)` and `mark_fully_cached(id, data)` move the id
from whichever one of the not-cached / not-yet-determined buckets it occupies into
the target bucket, removing it from the prior bucket, and both raise exactly when
the id is in neither or in both of those two buckets. -/
theorem c4_mark_transitions {α : Type} (c : CacheResultItems α) (t : String)
    (d : Option α) :
    (exceptIsOk (mark_partially_cached c t)
        = (dictContains c.not_cached_items t != dictContains c.not_yet_determined_items t))
  ∧ (exceptIsOk (mark_fully_cached c t d)
        = (dictContains c.not_cached_items t != dictContains c.not_yet_determined_items t))
  ∧ (∀ c', mark_partially_cached c t = Except.ok c' →
        dictContains c'.partially_cached_items t = true
      ∧ dictContains c'.not_cached_items t = false
      ∧ dictContains c'.not_yet_determined_items t = false
      ∧ c'.fully_cached_items = c.fully_cached_items)
  ∧ (∀ c', mark_fully_cached c t d = Except.ok c' →
        dictGet c'.fully_cached_items t = some ⟨t, d, ItemCacheState.FULLY_CACHED⟩
      ∧ dictContains c'.not_cached_items t = false
      ∧ dictContains c'.not_yet_determined_items t = false
      ∧ c'.partially_cached_items = c.partially_cached_items) := by
  cases hnc : dictContains c.not_cached_items t <;>
    cases hnyd : dictContains c.not_yet_determined_items t
  · obtain ⟨e1, he1⟩ := mark_partially_cached_error c t (hnc.trans hnyd.symm)
    obtain ⟨e2, he2⟩ := mark_fully_cached_error c t d (hnc.trans hnyd.symm)
    refine ⟨by simp [he1, exceptIsOk], by simp [he2, exceptIsOk], ?_, ?_⟩ <;>
      intro c' hc' <;> simp_all
  · refine ⟨?_, ?_, ?_, ?_⟩
    · rw [mark_partially_cached_of_nyd c t hnc hnyd]; simp [exceptIsOk]
    · rw [mark_fully_cached_of_nyd c t d hnc hnyd]; simp [exceptIsOk]
    · intro c' hc'
      rw [mark_partially_cached_of_nyd c t hnc hnyd] at hc'
      injection hc' with hc'
      subst hc'
      refine ⟨?_, hnc, ?_, rfl⟩
      · rw [dictContains_upsert]; simp
      · rw [dictContains_remove]; simp
    · intro c' hc'
      rw [mark_fully_cached_of_nyd c t d hnc hnyd] at hc'
      injection hc' with hc'
      subst hc'
      refine ⟨?_, hnc, ?_, rfl⟩
      · exact dictGet_upsert_self _ _ _
      · rw [dictContains_remove]; simp
  · refine ⟨?_, ?_, ?_, ?_⟩
    · rw [mark_partially_cached_of_nc c t hnc hnyd]; simp [exceptIsOk]
    · rw [mark_fully_cached_of_nc c t d hnc hnyd]; simp [exceptIsOk]
    · intro c' hc'
      rw [mark_partially_cached_of_nc c t hnc hnyd] at hc'
      injection hc' with hc'
      subst hc'
      refine ⟨?_, ?_, hnyd, rfl⟩
      · rw [dictContains_upsert]; simp
      · rw [dictContains_remove]; simp
    · intro c' hc'
      rw [mark_fully_cached_of_nc c t d hnc hnyd] at hc'
      injection hc' with hc'
      subst hc'
      refine ⟨?_, ?_, hnyd, rfl⟩
      · exact dictGet_upsert_self _ _ _
      · rw [dictContains_remove]; simp
  · obtain ⟨e1, he1⟩ := mark_partially_cached_error c t (hnc.trans hnyd.symm)
    obtain ⟨e2, he2⟩ := mark_fully_cached_error c t d (hnc.trans hnyd.symm)
    refine ⟨by simp [he1, exceptIsOk], by simp [he2, exceptIsOk], ?_, ?_⟩ <;>
      intro c' hc' <;> simp_all

/-- A concrete batch for exercising the mark transitions: one id, not cached. -/
def c4WitnessBatch : CacheResultItems Nat :=
  add_not_cached (mkCacheResultItems ["x"] "thread" none) ["x"]

/-- Witness for `c4_mark_transitions` at a concrete batch. -/
theorem c4_mark_transitions_witness :
    exceptIsOk (mark_partially_cached c4WitnessBatch "x") = true
  ∧ ∃ c', mark_partially_cached c4WitnessBatch "x" = Except.ok c'
      ∧ dictContains c'.partially_cached_items "x" = true
      ∧ dictContains c'.not_cached_items "x" = false
      ∧ dictContains c'.not_yet_determined_items "x" = false := by
  have h := c4_mark_transitions c4WitnessBatch "x" (none : Option Nat)
  have h1 : exceptIsOk (mark_partially_cached c4WitnessBatch "x") = true := by
    rw [h.1]; decide
  refine ⟨h1, ?_⟩
  cases hm : mark_partially_cached c4WitnessBatch "x" with
  | error e => rw [hm] at h1; exact absurd h1 (by simp [exceptIsOk])
  | ok c' =>
    have h3 := h.2.2.1 c' hm
    exact ⟨c', rfl, h3.1, h3.2.1, h3.2.2.1⟩

/-! ## Filesystem caching strategy (gmail_cache.py: FileSystemEmailThreadCacheStrategy)

The external collaborators (pythoncommons FileUtils / JsonFileUtils and
StringUtils.md5_hash) are modelled as oracle functions. A JSON read returns the
parsed payload together with the number of bytes read, or `none` when the read
raises. Metrics accounting that only feeds logging (`_cache_actions_performed`)
is not tracked. -/

/-- External collaborators of the filesystem strategy. -/
structure FsEnv (α : Type) where
  md5Hash : String → String
  pathExists : String → Bool
  readJson : String → Option (α × Nat)

/-- `FileUtils.join_path` (os.path.join for relative second components; the
first components used by the strategy do not end in a separator). -/
def joinPath (a b : String) : String :=
  if a = "" then b else a ++ "/" ++ b

/-- In-memory persistent-cache index of `FileSystemEmailThreadCacheStrategy`:
`cached_thread_ids`, the set of `(threadID, messageID, attachmentID)` tuples
known persisted, thread id -> (message id -> message date), and the unknown
message ids recorded per thread by `actualize_cache_state`. -/
structure FileSystemCacheState (α : Type) where
  cached_thread_ids : List String
  cached_message_attachments : List (String × String × String)
  thread_to_message_data : Dict (Dict String)
  unknown_message_per_thread : Dict (List String)

/-- `_load_data_from_file`: JSON load plus read metrics; a failing load raises. -/
def load_data_from_file {α : Type} (env : FsEnv α) (file : String) :
    Except String (α × CacheMetrics) :=
  match env.readJson file with
  | some (data, bytes_read) => Except.ok (data, CacheMetrics.create_for_read 1 bytes_read)
  | none => Except.error ("Could not load JSON file: " ++ file)

/-- `_get_thread_from_file_system`: raises for a thread id not in
`cached_thread_ids`, else loads `<threads_dir>/<thread_id>/thread.json`. -/
def get_thread_from_file_system {α : Type} (env : FsEnv α) (threads_dir : String)
    (st : FileSystemCacheState α) (thread_id : String) : Except String (α × CacheMetrics) :=
  if st.cached_thread_ids.contains thread_id then
    load_data_from_file env (joinPath (joinPath threads_dir thread_id) "thread.json")
  else
    Except.error ("Thread with ID " ++ thread_id ++
      " is not in cache. This should not happen at this point.")

/-- The loop of `get_cache_state_for_threads` in the
`expect_one_message_per_thread` branch: load every known thread from the
filesystem; a thread whose file cannot be read is moved to the not-cached set. -/
def load_all_cached_threads {α : Type} (env : FsEnv α) (threads_dir : String)
    (st : FileSystemCacheState α) : List String → List (String × Option α) × List String
  | [] => ([], [])
  | t :: ts =>
      let rest := load_all_cached_threads env threads_dir st ts
      match get_thread_from_file_system env threads_dir st t with
      | Except.ok (data, _) => ((t, some data) :: rest.1, rest.2)
      | Except.error _ => (rest.1, t :: rest.2)

/-- `get_cache_state_for_threads(thread_ids, expect_one_message_per_thread)`.
Python set differences are represented by filters over the requested list /
the known list; only membership of the resulting buckets is meaningful, which
matches the Python sets since the buckets are dicts (duplicates collapse). -/
def get_cache_state_for_threads {α : Type} (env : FsEnv α) (threads_dir : String)
    (st : FileSystemCacheState α) (thread_ids : List String)
    (expect_one_message_per_thread : Bool) : CacheResultItems α :=
  let unknown_thread_ids := thread_ids.filter (fun t => !(st.cached_thread_ids.contains t))
  if expect_one_message_per_thread then
    let loaded := load_all_cached_threads env threads_dir st st.cached_thread_ids
    add_fully_cached
      (add_not_cached (mkCacheResultItems thread_ids "thread" none)
        (unknown_thread_ids ++ loaded.2))
      loaded.1
  else
    let known_thread_ids := thread_ids.filter (fun t => st.cached_thread_ids.contains t)
    add_not_cached
      (add_not_yet_determined (mkCacheResultItems thread_ids "thread" none) known_thread_ids)
      unknown_thread_ids

/-- `_get_message_attachment_filename`: the attachment id is shortened through
the external md5 hash. -/
def get_message_attachment_filename {α : Type} (env : FsEnv α)
    (message_id attachment_id : String) : String :=
  "message_" ++ message_id ++ "_attachment_" ++ env.md5Hash attachment_id ++ ".txt"

/-- `_get_thread_dir`: raises when the thread directory does not exist. -/
def get_thread_dir {α : Type} (env : FsEnv α) (threads_dir thread_id : String) :
    Except String String :=
  let thread_dir := joinPath threads_dir thread_id
  if env.pathExists thread_dir then Except.ok thread_dir
  else
    Except.error ("Thread dir does not exist for thread with ID: " ++ thread_dir ++
      ". This should not happen at this point of the execution.")

/-- `_get_messages_dir` (the create flag only performs mkdir; the path is the same). -/
def get_messages_dir (thread_dir : String) : String :=
  joinPath thread_dir "messages"

/-- `_get_attachment_filename`. -/
def get_attachment_filename {α : Type} (env : FsEnv α)
    (threads_dir thread_id message_id attachment_id : String) : Except String String :=
  match get_thread_dir env threads_dir thread_id with
  | Except.error e => Except.error e
  | Except.ok thread_dir =>
      Except.ok (joinPath (get_messages_dir thread_dir)
        (get_message_attachment_filename env message_id attachment_id))

/-- `get_cache_state_for_message(thread_id, message_id, attachment_id)`:
if the `(thread, message, attachment)` tuple is not in the in-memory marker set,
probe the filesystem; a successful probe loads the file (keeping the
data-and-metrics tuple unsplit, as the source does) and primes the marker set.
The returned batch is built over `[message_id]`, while the cached / not-cached
entries are keyed by `thread_id`, exactly as in the source. -/
def get_cache_state_for_message {α : Type} (env : FsEnv α) (threads_dir : String)
    (st : FileSystemCacheState α) (thread_id message_id attachment_id : String) :
    Except String (FileSystemCacheState α × CacheResultItems (α × CacheMetrics)) :=
  let cache_key := (thread_id, message_id, attachment_id)
  let probe : Except String (FileSystemCacheState α × Option (α × CacheMetrics)) :=
    if st.cached_message_attachments.contains cache_key then Except.ok (st, none)
    else
      match get_attachment_filename env threads_dir thread_id message_id attachment_id with
      | Except.error e => Except.error e
      | Except.ok msg_attachment_filename =>
          if env.pathExists msg_attachment_filename then
            match load_data_from_file env msg_attachment_filename with
            | Except.error e => Except.error e
            | Except.ok loaded =>
                let marked := st.cached_message_attachments ++ [cache_key]
                let st1 := { st with cached_message_attachments := marked }
                Except.ok (st1, some loaded)
          else Except.ok (st, none)
  match probe with
  | Except.error e => Except.error e
  | Except.ok (st1, attachment_data) =>
      let cached : List (String × Option (α × CacheMetrics)) :=
        if st1.cached_message_attachments.contains cache_key then
          [(thread_id, attachment_data)]
        else []
      let not_cached : List String := if cached.length > 0 then [] else [thread_id]
      Except.ok (st1,
        add_fully_cached
          (add_not_cached (mkCacheResultItems [message_id] "message attachment" none)
            not_cached)
          cached)

/-- The cached message-id list the strategy keeps for a thread
(`self.thread_to_message_data[thread_id].keys() if thread_id in
self.thread_to_message_data else []`). -/
def cached_message_ids_for_thread {α : Type} (st : FileSystemCacheState α)
    (thread_id : String) : List String :=
  match dictGet st.thread_to_message_data thread_id with
  | some m => dictKeys m
  | none => []

/-- `actualize_cache_state(cache_state, thread_id, message_ids)`: record the set
difference of the live message ids minus the cached message ids for the thread;
nonempty difference marks the thread partially cached, empty difference loads the
persisted thread payload and marks it fully cached with that data. -/
def actualize_cache_state {α : Type} (env : FsEnv α) (threads_dir : String)
    (st : FileSystemCacheState α) (cache_state : CacheResultItems α)
    (thread_id : String) (message_ids : List String) :
    Except String (FileSystemCacheState α × CacheResultItems α) :=
  let message_ids_for_thread : List String := cached_message_ids_for_thread st thread_id
  let unknown := message_ids.filter (fun m => !(message_ids_for_thread.contains m))
  let upserted := dictUpsert st.unknown_message_per_thread thread_id unknown
  let st1 := { st with unknown_message_per_thread := upserted }
  if !unknown.isEmpty then
    match mark_partially_cached cache_state thread_id with
    | Except.error e => Except.error e
    | Except.ok cs => Except.ok (st1, cs)
  else
    match get_thread_from_file_system env threads_dir st1 thread_id with
    | Except.error e => Except.error e
    | Except.ok (data, _) =>
        match mark_fully_cached cache_state thread_id (some data) with
        | Except.error e => Except.error e
        | Except.ok cs => Except.ok (st1, cs)

/-! ## C1: attachment cache lookup -/

/-- Concrete oracle environment for exercising `get_cache_state_for_message`
purely from the in-memory marker set (no file ever exists). -/
def c1Env : FsEnv Nat :=
  { md5Hash := fun s => s, pathExists := fun _ => false, readJson := fun _ => none }

/-- State in which the tuple (t1, m1, a1) was previously recorded as persisted. -/
def c1State : FileSystemCacheState Nat :=
  { cached_thread_ids := []
    cached_message_attachments := [("t1", "m1", "a1")]
    thread_to_message_data := []
    unknown_message_per_thread := [] }

/-- C1 (code-bug evidence): with the tuple (t1, m1, a1) recorded as persisted in
the in-memory marker set, the batch returned by `get_cache_state_for_message`
reports `is_fully_cached` as false on the requested message id m1 — the source
keys the fully-cached bucket by the thread id t1 instead — so the claimed
equivalence with tuple persistence fails for the requested message id. -/
theorem c1_attachment_bucket_keyed_by_thread_id :
    (get_cache_state_for_message c1Env "threads" c1State "t1" "m1" "a1").toOption.map
        (fun r => (is_fully_cached r.2 "m1", is_fully_cached r.2 "t1"))
      = some (false, true) := by
  rfl

/-! ## Bucket membership lemmas for the strategy results -/

theorem contains_eq_true_iff {a : String} {l : List String} :
    l.contains a = true ↔ a ∈ l :=
  List.elem_iff

theorem create_list_any {α : Type} (l : List String) (s : ItemCacheState) (k : String) :
    ((create_list l s : List (String × CachedItem α)).any (fun p => p.1 == k))
      = l.any (fun x => x == k) := by
  induction l with
  | nil => rfl
  | cons x xs ih =>
    simp only [create_list, List.map_cons, List.any_cons] at *
    exact congrArg (fun b => (x == k || b)) ih

theorem any_beq_iff_mem (l : List String) (k : String) :
    l.any (fun x => x == k) = true ↔ k ∈ l := by
  simp [List.any_eq_true, beq_iff_eq]

theorem dictContains_foldl_upsert {β γ : Type} (f : String → γ → β)
    (l : List (String × γ)) (d : Dict β) (k : String) :
    dictContains (l.foldl (fun acc p => dictUpsert acc p.1 (f p.1 p.2)) d) k
      = (dictContains d k || l.any (fun p => p.1 == k)) := by
  induction l generalizing d with
  | nil => simp
  | cons e es ih =>
    simp only [List.foldl_cons, List.any_cons]
    rw [ih, dictContains_upsert, Bool.or_assoc]

theorem load_all_cached_threads_of_consistent {α : Type} (env : FsEnv α)
    (threads_dir : String) (st : FileSystemCacheState α) (l : List String)
    (hsub : ∀ c ∈ l, c ∈ st.cached_thread_ids)
    (hread : ∀ c ∈ l,
      (env.readJson (joinPath (joinPath threads_dir c) "thread.json")).isSome = true) :
    (load_all_cached_threads env threads_dir st l).2 = []
  ∧ (load_all_cached_threads env threads_dir st l).1.map Prod.fst = l := by
  induction l with
  | nil => exact ⟨rfl, rfl⟩
  | cons t ts ih =>
    have hcont : st.cached_thread_ids.contains t = true :=
      contains_eq_true_iff.mpr (hsub t (by simp))
    obtain ⟨pair, hp⟩ := Option.isSome_iff_exists.mp (hread t (by simp))
    obtain ⟨data, bytes⟩ := pair
    have ihh := ih (fun c hc => hsub c (by simp [hc])) (fun c hc => hread c (by simp [hc]))
    simp only [load_all_cached_threads, get_thread_from_file_system, hcont, if_true,
      load_data_from_file, hp]
    exact ⟨ihh.1, by simp [ihh.2]⟩

/-! ## C3: single-message-thread fast path -/

/-- C3: with `expect_one_message_per_thread = true`, every requested thread id
not in the known thread-id set is classified not cached and every known
requested id is classified fully cached; no live API lookup is involved (the
embedding of `get_cache_state_for_threads` is computed from the in-memory index
and the filesystem oracles only, with no live-fetch oracle among its inputs),
and the not-yet-determined / partially-cached buckets stay empty. The known
threads are assumed readable from the persistent store, which is how the startup
scan left it. -/
theorem c3_single_message_fast_path {α : Type} (env : FsEnv α) (threads_dir : String)
    (st : FileSystemCacheState α) (thread_ids : List String) (t : String)
    (hread : ∀ c ∈ st.cached_thread_ids,
      (env.readJson (joinPath (joinPath threads_dir c) "thread.json")).isSome = true)
    (ht : t ∈ thread_ids) :
    (t ∉ st.cached_thread_ids →
        dictContains
            (get_cache_state_for_threads env threads_dir st thread_ids true).not_cached_items
            t = true
      ∧ is_fully_cached (get_cache_state_for_threads env threads_dir st thread_ids true) t
          = false)
  ∧ (t ∈ st.cached_thread_ids →
        is_fully_cached (get_cache_state_for_threads env threads_dir st thread_ids true) t
          = true
      ∧ dictContains
            (get_cache_state_for_threads env threads_dir st thread_ids true).not_cached_items
            t = false)
  ∧ (get_cache_state_for_threads env threads_dir st thread_ids true).not_yet_determined_items
      = []
  ∧ (get_cache_state_for_threads env threads_dir st thread_ids true).partially_cached_items
      = [] := by
  obtain ⟨hu, hm⟩ :=
    load_all_cached_threads_of_consistent env threads_dir st st.cached_thread_ids
      (fun c hc => hc) hread
  have hbatch : get_cache_state_for_threads env threads_dir st thread_ids true
      = add_fully_cached
          (add_not_cached (mkCacheResultItems thread_ids "thread" none)
            ((thread_ids.filter (fun x => !(st.cached_thread_ids.contains x))) ++
              (load_all_cached_threads env threads_dir st st.cached_thread_ids).2))
          (load_all_cached_threads env threads_dir st st.cached_thread_ids).1 := rfl
  have hnc : ∀ k,
      (dictContains
          (get_cache_state_for_threads env threads_dir st thread_ids true).not_cached_items k
        = true) ↔ (k ∈ thread_ids ∧ k ∉ st.cached_thread_ids) := by
    intro k
    rw [hbatch]
    show dictContains
        (dictUpdateWith []
          (create_list
            ((thread_ids.filter (fun x => !(st.cached_thread_ids.contains x))) ++
              (load_all_cached_threads env threads_dir st st.cached_thread_ids).2)
            ItemCacheState.NOT_CACHED))
        k = true ↔ _
    rw [dictContains_updateWith, create_list_any, hu, List.append_nil]
    simp only [dictContains, Bool.false_or]
    rw [any_beq_iff_mem, List.mem_filter]
    simp [contains_eq_true_iff]
  have hfc : ∀ k,
      (is_fully_cached (get_cache_state_for_threads env threads_dir st thread_ids true) k
        = true) ↔ k ∈ st.cached_thread_ids := by
    intro k
    rw [hbatch]
    show dictContains
        ((load_all_cached_threads env threads_dir st st.cached_thread_ids).1.foldl
          (fun acc p =>
            dictUpsert acc p.1 (⟨p.1, p.2, ItemCacheState.FULLY_CACHED⟩ : CachedItem α)) [])
        k = true ↔ k ∈ st.cached_thread_ids
    rw [dictContains_foldl_upsert
      (fun a b => (⟨a, b, ItemCacheState.FULLY_CACHED⟩ : CachedItem α))]
    simp only [dictContains, Bool.false_or]
    have hany : ∀ l : List (String × Option α),
        (l.map Prod.fst).any (fun x => x == k) = l.any (fun p => p.1 == k) := by
      intro l
      induction l with
      | nil => rfl
      | cons p ps ih =>
        simp only [List.map_cons, List.any_cons]
        rw [ih]
    rw [← hany, hm, any_beq_iff_mem]
  refine ⟨?_, ?_, ?_, ?_⟩
  · intro hnot
    refine ⟨(hnc t).mpr ⟨ht, hnot⟩, ?_⟩
    exact Bool.eq_false_iff.mpr (fun h => hnot ((hfc t).mp h))
  · intro hmem
    refine ⟨(hfc t).mpr hmem, ?_⟩
    exact Bool.eq_false_iff.mpr (fun h => ((hnc t).mp h).2 hmem)
  · rw [hbatch]; rfl
  · rw [hbatch]; rfl

/-- Concrete persistent state for the C3 witness: one known thread T1. -/
def c3State : FileSystemCacheState Nat :=
  { cached_thread_ids := ["T1"]
    cached_message_attachments := []
    thread_to_message_data := [("T1", [("M1", "1620084692000")])]
    unknown_message_per_thread := [] }

/-- Oracle environment for the C3 witness: every path exists and every JSON
read succeeds with payload 5. -/
def c3Env : FsEnv Nat :=
  { md5Hash := fun s => s, pathExists := fun _ => true, readJson := fun _ => some (5, 1) }

/-- Witness for `c3_single_message_fast_path` at a concrete state: requested
ids [T1, T2] with only T1 known. -/
theorem c3_single_message_fast_path_witness :
    (is_fully_cached (get_cache_state_for_threads c3Env "threads" c3State ["T1", "T2"] true)
        "T1" = true)
  ∧ (dictContains
        (get_cache_state_for_threads c3Env "threads" c3State ["T1", "T2"] true).not_cached_items
        "T2" = true) := by
  have h1 := c3_single_message_fast_path c3Env "threads" c3State ["T1", "T2"] "T1"
    (by intro c hc; rfl) (by simp)
  have h2 := c3_single_message_fast_path c3Env "threads" c3State ["T1", "T2"] "T2"
    (by intro c hc; rfl) (by simp)
  refine ⟨(h1.2.1 (by simp [c3State])).1, (h2.1 (by simp [c3State])).1⟩

/-! ## C2: multi-message thread classification and actualization -/

/-- C2: with `expect_one_message_per_thread = false`, every requested thread id
unknown to the persistent store is classified not cached and every known
requested id is classified not yet determined (the fully-cached and the
partially-cached buckets stay empty); then, for a not-yet-determined (known,
requested) id, `actualize_cache_state` with the live message-id list marks the
thread partially cached when the difference live-minus-cached is nonempty, and
otherwise marks it fully cached with the persisted full-thread payload as its
data. -/
theorem c2_multi_message_classification_and_actualization {α : Type} (env : FsEnv α)
    (threads_dir : String) (st : FileSystemCacheState α) (thread_ids : List String)
    (t : String) (ht : t ∈ thread_ids) :
    (t ∉ st.cached_thread_ids →
        dictContains
            (get_cache_state_for_threads env threads_dir st thread_ids false).not_cached_items
            t = true
      ∧ dictContains
            (get_cache_state_for_threads env threads_dir st thread_ids
              false).not_yet_determined_items t = false)
  ∧ (t ∈ st.cached_thread_ids →
        dictContains
            (get_cache_state_for_threads env threads_dir st thread_ids
              false).not_yet_determined_items t = true
      ∧ dictContains
            (get_cache_state_for_threads env threads_dir st thread_ids false).not_cached_items
            t = false)
  ∧ (get_cache_state_for_threads env threads_dir st thread_ids false).fully_cached_items = []
  ∧ (get_cache_state_for_threads env threads_dir st thread_ids false).partially_cached_items
      = []
  ∧ (t ∈ st.cached_thread_ids → ∀ message_ids : List String,
      (message_ids.filter (fun m => !((cached_message_ids_for_thread st t).contains m)) ≠ [] →
        (actualize_cache_state env threads_dir st
            (get_cache_state_for_threads env threads_dir st thread_ids false)
            t message_ids).toOption.map
          (fun r => (dictContains r.2.partially_cached_items t,
                     dictContains r.2.not_yet_determined_items t,
                     dictContains r.2.not_cached_items t))
          = some (true, false, false))
    ∧ (message_ids.filter (fun m => !((cached_message_ids_for_thread st t).contains m)) = [] →
        ∀ data bytes,
          env.readJson (joinPath (joinPath threads_dir t) "thread.json") = some (data, bytes) →
          (actualize_cache_state env threads_dir st
              (get_cache_state_for_threads env threads_dir st thread_ids false)
              t message_ids).toOption.map
            (fun r => (dictGet r.2.fully_cached_items t,
                       dictContains r.2.not_yet_determined_items t))
            = some (some ⟨t, some data, ItemCacheState.FULLY_CACHED⟩, false))) := by
  have hbatch : get_cache_state_for_threads env threads_dir st thread_ids false
      = add_not_cached
          (add_not_yet_determined (mkCacheResultItems thread_ids "thread" none)
            (thread_ids.filter (fun x => st.cached_thread_ids.contains x)))
          (thread_ids.filter (fun x => !(st.cached_thread_ids.contains x))) := rfl
  have hnc : ∀ k,
      (dictContains
          (get_cache_state_for_threads env threads_dir st thread_ids false).not_cached_items k
        = true) ↔ (k ∈ thread_ids ∧ k ∉ st.cached_thread_ids) := by
    intro k
    rw [hbatch]
    show dictContains
        (dictUpdateWith []
          (create_list (thread_ids.filter (fun x => !(st.cached_thread_ids.contains x)))
            ItemCacheState.NOT_CACHED) : Dict (CachedItem α))
        k = true ↔ (k ∈ thread_ids ∧ k ∉ st.cached_thread_ids)
    rw [dictContains_updateWith, create_list_any]
    simp only [dictContains, Bool.false_or]
    rw [any_beq_iff_mem, List.mem_filter]
    simp [contains_eq_true_iff]
  have hnyd : ∀ k,
      (dictContains
          (get_cache_state_for_threads env threads_dir st thread_ids
            false).not_yet_determined_items k
        = true) ↔ (k ∈ thread_ids ∧ k ∈ st.cached_thread_ids) := by
    intro k
    rw [hbatch]
    show dictContains
        (dictUpdateWith []
          (create_list (thread_ids.filter (fun x => st.cached_thread_ids.contains x))
            ItemCacheState.CACHE_LEVEL_NOT_DETERMINED) : Dict (CachedItem α))
        k = true ↔ (k ∈ thread_ids ∧ k ∈ st.cached_thread_ids)
    rw [dictContains_updateWith, create_list_any]
    simp only [dictContains, Bool.false_or]
    rw [any_beq_iff_mem, List.mem_filter]
    simp [contains_eq_true_iff]
  refine ⟨?_, ?_, ?_, ?_, ?_⟩
  · intro hnot
    refine ⟨(hnc t).mpr ⟨ht, hnot⟩, ?_⟩
    exact Bool.eq_false_iff.mpr (fun h => hnot ((hnyd t).mp h).2)
  · intro hmem
    refine ⟨(hnyd t).mpr ⟨ht, hmem⟩, ?_⟩
    exact Bool.eq_false_iff.mpr (fun h => ((hnc t).mp h).2 hmem)
  · rw [hbatch]; rfl
  · rw [hbatch]; rfl
  · intro hmem message_ids
    have hnct : dictContains
        (get_cache_state_for_threads env threads_dir st thread_ids false).not_cached_items t
        = false :=
      Bool.eq_false_iff.mpr (fun h => ((hnc t).mp h).2 hmem)
    have hnydt : dictContains
        (get_cache_state_for_threads env threads_dir st thread_ids
          false).not_yet_determined_items t = true :=
      (hnyd t).mpr ⟨ht, hmem⟩
    constructor
    · intro hdiff
      have hne : (message_ids.filter
          (fun m => !((cached_message_ids_for_thread st t).contains m))).isEmpty = false := by
        cases hq : message_ids.filter
            (fun m => !((cached_message_ids_for_thread st t).contains m)) with
        | nil => exact absurd hq hdiff
        | cons a as => rfl
      have hmark := mark_partially_cached_of_nyd
        (get_cache_state_for_threads env threads_dir st thread_ids false) t hnct hnydt
      simp only [actualize_cache_state, hne, Bool.not_false, if_true, hmark]
      simp [Except.toOption, dictContains_upsert, dictContains_remove, hnct]
    · intro hdiff data bytes hdata
      have hcont : st.cached_thread_ids.contains t = true := contains_eq_true_iff.mpr hmem
      have hmark := mark_fully_cached_of_nyd
        (get_cache_state_for_threads env threads_dir st thread_ids false) t (some data)
        hnct hnydt
      simp only [actualize_cache_state, hdiff, List.isEmpty_nil, Bool.not_true,
        get_thread_from_file_system, hcont, if_true, load_data_from_file, hdata, hmark]
      simp [Except.toOption, dictGet_upsert_self, dictContains_remove]

/-- Concrete state for the C2 witness: known thread T1 whose cached message-id
list is [M1]; T2 unknown. -/
def c2State : FileSystemCacheState Nat :=
  { cached_thread_ids := ["T1"]
    cached_message_attachments := []
    thread_to_message_data := [("T1", [("M1", "1620084692000")])]
    unknown_message_per_thread := [] }

/-- Oracle environment for the C2 witness: every JSON read succeeds with payload 7. -/
def c2Env : FsEnv Nat :=
  { md5Hash := fun s => s, pathExists := fun _ => true, readJson := fun _ => some (7, 3) }

/-- Witness for `c2_multi_message_classification_and_actualization` at a
concrete state: T1 is not-yet-determined, T2 not cached; actualizing T1 with
live list [M1, M2] marks it partially cached, with live list [M1] fully cached
with the persisted payload 7. -/
theorem c2_multi_message_classification_and_actualization_witness :
    (dictContains
        (get_cache_state_for_threads c2Env "threads" c2State ["T1", "T2"]
          false).not_yet_determined_items "T1" = true)
  ∧ (dictContains
        (get_cache_state_for_threads c2Env "threads" c2State ["T1", "T2"]
          false).not_cached_items "T2" = true)
  ∧ ((actualize_cache_state c2Env "threads" c2State
        (get_cache_state_for_threads c2Env "threads" c2State ["T1", "T2"] false)
        "T1" ["M1", "M2"]).toOption.map
      (fun r => (dictContains r.2.partially_cached_items "T1",
                 dictContains r.2.not_yet_determined_items "T1",
                 dictContains r.2.not_cached_items "T1"))
      = some (true, false, false))
  ∧ ((actualize_cache_state c2Env "threads" c2State
        (get_cache_state_for_threads c2Env "threads" c2State ["T1", "T2"] false)
        "T1" ["M1"]).toOption.map
      (fun r => (dictGet r.2.fully_cached_items "T1",
                 dictContains r.2.not_yet_determined_items "T1"))
      = some (some ⟨"T1", some 7, ItemCacheState.FULLY_CACHED⟩, false)) := by
  have h1 := c2_multi_message_classification_and_actualization c2Env "threads" c2State
    ["T1", "T2"] "T1" (by simp)
  have h2 := c2_multi_message_classification_and_actualization c2Env "threads" c2State
    ["T1", "T2"] "T2" (by simp)
  have hmem : "T1" ∈ c2State.cached_thread_ids := by simp [c2State]
  refine ⟨(h1.2.1 hmem).1, (h2.1 (by simp [c2State])).1, ?_, ?_⟩
  · exact (h1.2.2.2.2 hmem ["M1", "M2"]).1 (by decide)
  · exact (h1.2.2.2.2 hmem ["M1"]).2 (by decide) 7 3 rfl

/-! ## C5: a fully-cached thread with empty data is fatal (gmail_api.py) -/

/-- Python truthiness of the optional cached payload: `None` is falsy, and the
payload type carries its own truthiness predicate (empty dict / list / string
are falsy in Python). -/
def optTruthy {α : Type} (truthy : α → Bool) : Option α → Bool
  | none => false
  | some d => truthy d

/-- gmail_api.py `GmailWrapper._get_item_from_cache`: retrieve the data of a
fully-cached item and raise when it resolves to a falsy value
(`if not thread_resp_full: raise ValueError(...)`). -/
def get_item_from_cache {α : Type} (truthy : α → Bool) (cache_state : CacheResultItems α)
    (item_id : String) : Except String α :=
  match get_data_for_item cache_state item_id with
  | Except.error e => Except.error e
  | Except.ok thread_resp_full =>
      match thread_resp_full with
      | none => Except.error ("Data is None for ID " ++ item_id ++ ". Please check logs.")
      | some d =>
          if truthy d then Except.ok d
          else Except.error ("Data is None for ID " ++ item_id ++ ". Please check logs.")

/-- gmail_api.py `GmailWrapper._request_thread_or_load_from_cache`, the part
after the accepted-format guard: when the thread is not fully cached, fetch the
live minimal-format message ids and actualize the batch (`process_messages`
delegates to the strategy through the fetching context); when the possibly
updated batch reports fully cached, serve from the cache, else fetch the full
thread live. The boolean result is `loaded_from_cache`. -/
def request_thread_or_load_from_cache_body {α : Type} (truthy : α → Bool)
    (fetch_minimal : Unit → List String)
    (process_messages : CacheResultItems α → List String → Except String (CacheResultItems α))
    (fetch_full : Unit → α)
    (cache_state : CacheResultItems α) (thread_id : String) :
    Except String (CacheResultItems α × α × Bool) :=
  let step1 : Except String (CacheResultItems α) :=
    if is_fully_cached cache_state thread_id then Except.ok cache_state
    else process_messages cache_state (fetch_minimal ())
  match step1 with
  | Except.error e => Except.error e
  | Except.ok cs =>
      if is_fully_cached cs thread_id then
        match get_item_from_cache truthy cs thread_id with
        | Except.error e => Except.error e
        | Except.ok d => Except.ok (cs, d, true)
      else Except.ok (cs, fetch_full (), false)

/-- C5: when the batch reports the thread fully cached but the data stored for
it resolves to Python-falsy (None or a falsy payload), the cache-or-fetch step
raises: the result is the same error for every live-fetch oracle, so no live
re-fetch of the thread is attempted on this path. -/
theorem c5_fully_cached_empty_data_raises {α : Type} (truthy : α → Bool)
    (cache_state : CacheResultItems α) (thread_id : String) (item : CachedItem α)
    (hget : dictGet cache_state.fully_cached_items thread_id = some item)
    (hfalsy : optTruthy truthy item.data = false) :
    ∀ fetch_minimal
      (process_messages :
        CacheResultItems α → List String → Except String (CacheResultItems α))
      fetch_full,
      request_thread_or_load_from_cache_body truthy fetch_minimal process_messages fetch_full
          cache_state thread_id
        = Except.error ("Data is None for ID " ++ thread_id ++ ". Please check logs.") := by
  intro fetch_minimal process_messages fetch_full
  have hful : is_fully_cached cache_state thread_id = true :=
    (dictGet_isSome_iff_contains _ _).mp (by rw [hget]; rfl)
  have hgd : get_data_for_item cache_state thread_id = Except.ok item.data := by
    rw [get_data_for_item, hget]
  have hitem : get_item_from_cache truthy cache_state thread_id
      = Except.error ("Data is None for ID " ++ thread_id ++ ". Please check logs.") := by
    rw [get_item_from_cache, hgd]
    cases hd : item.data with
    | none => rfl
    | some d =>
      rw [hd] at hfalsy
      simp only [optTruthy] at hfalsy
      simp [hfalsy]
  simp [request_thread_or_load_from_cache_body, hful, hitem]

/-- Concrete batch for the C5 witness: T1 fully cached with data None. -/
def c5Batch : CacheResultItems Nat :=
  add_fully_cached (mkCacheResultItems ["T1"] "thread" none) [("T1", none)]

/-- Witness for `c5_fully_cached_empty_data_raises`: at a concrete batch and
concrete fetch oracles, the step returns the error. -/
theorem c5_fully_cached_empty_data_raises_witness :
    request_thread_or_load_from_cache_body (fun _ => true) (fun _ => ["M1"])
        (fun cs _ => Except.ok cs) (fun _ => 42) c5Batch "T1"
      = Except.error ("Data is None for ID " ++ "T1" ++ ". Please check logs.") :=
  c5_fully_cached_empty_data_raises (fun _ => true) c5Batch "T1"
    ⟨"T1", none, ItemCacheState.FULLY_CACHED⟩ rfl rfl
    (fun _ => ["M1"]) (fun cs _ => Except.ok cs) (fun _ => 42)

/-! ## Gmail domain model (gmail_domain.py) -/

/-- gmail_domain.py `Header`. -/
structure Header where
  name : String
  value : String
deriving DecidableEq

/-- gmail_domain.py `MessagePartBody`; fields absent from (or falsy in) the raw
response are `none` (`GenericObjectHelper.get_field` returns the `None` default
then). -/
structure MessagePartBody where
  data : Option String
  size : Option String
  attachment_id : Option String
deriving DecidableEq

/-- gmail_domain.py `MessagePart`: one node of the MIME part tree. -/
inductive MessagePart where
  | mk (id : Option String) (mime_type : Option String) (headers : List Header)
      (body : MessagePartBody) (parts : List MessagePart)

def MessagePart.id : MessagePart → Option String
  | MessagePart.mk i _ _ _ _ => i

def MessagePart.mime_type : MessagePart → Option String
  | MessagePart.mk _ m _ _ _ => m

def MessagePart.headers : MessagePart → List Header
  | MessagePart.mk _ _ h _ _ => h

def MessagePart.body : MessagePart → MessagePartBody
  | MessagePart.mk _ _ _ b _ => b

def MessagePart.parts : MessagePart → List MessagePart
  | MessagePart.mk _ _ _ _ ps => ps

/-- gmail_domain.py `Message` (the date is the epoch timestamp the wrapper
parses out of `internalDate`). -/
structure Message where
  id : Option String
  thread_id : Option String
  date : Int
  snippet : Option String
  payload : MessagePart

mutual

/-- gmail_domain.py `Message._get_all_msg_parts_recursive`: the flattened
subtree lists of the children, concatenated in child order, then the node
itself appended. -/
def get_all_msg_parts_recursive : MessagePart → List MessagePart
  | MessagePart.mk i m h b parts =>
      get_all_msg_parts_of_list parts ++ [MessagePart.mk i m h b parts]

/-- The `for part in msg_part.parts: lst += self._get_all_msg_parts_recursive(part)`
loop. -/
def get_all_msg_parts_of_list : List MessagePart → List MessagePart
  | [] => []
  | p :: ps => get_all_msg_parts_recursive p ++ get_all_msg_parts_of_list ps

end

/-- `Message.message_parts`, as computed by `Message.__post_init__`. -/
def Message.message_parts (msg : Message) : List MessagePart :=
  get_all_msg_parts_recursive msg.payload

mutual

/-- The accumulation order stated by the claim: for each child of a node, in
child order, all parts accumulated from that child subtree, followed by the
node itself. -/
def claim_parts_order : MessagePart → List MessagePart
  | MessagePart.mk i m h b parts =>
      (claim_order_of_children parts).flatten ++ [MessagePart.mk i m h b parts]

/-- The per-child subtree part lists, in child order. -/
def claim_order_of_children : List MessagePart → List (List MessagePart)
  | [] => []
  | c :: cs => claim_parts_order c :: claim_order_of_children cs

end

mutual

/-- The nodes of a MIME part tree, listed in pre-order. -/
def mime_tree_nodes : MessagePart → List MessagePart
  | MessagePart.mk i m h b parts =>
      MessagePart.mk i m h b parts :: mime_tree_nodes_of_list parts

def mime_tree_nodes_of_list : List MessagePart → List MessagePart
  | [] => []
  | c :: cs => mime_tree_nodes c ++ mime_tree_nodes_of_list cs

end

mutual

theorem get_all_eq_claim : ∀ p : MessagePart,
    get_all_msg_parts_recursive p = claim_parts_order p
  | MessagePart.mk i m h b parts => by
      rw [get_all_msg_parts_recursive, claim_parts_order, get_all_list_eq_claim parts]

theorem get_all_list_eq_claim : ∀ l : List MessagePart,
    get_all_msg_parts_of_list l = (claim_order_of_children l).flatten
  | [] => rfl
  | p :: ps => by
      rw [get_all_msg_parts_of_list, claim_order_of_children, List.flatten_cons,
        get_all_eq_claim p, get_all_list_eq_claim ps]

end

mutual

theorem get_all_perm_nodes : ∀ p : MessagePart,
    (get_all_msg_parts_recursive p).Perm (mime_tree_nodes p)
  | MessagePart.mk i m h b parts => by
      rw [get_all_msg_parts_recursive, mime_tree_nodes]
      exact (List.perm_append_singleton _ _).trans
        ((get_all_list_perm_nodes parts).cons (MessagePart.mk i m h b parts))

theorem get_all_list_perm_nodes : ∀ l : List MessagePart,
    (get_all_msg_parts_of_list l).Perm (mime_tree_nodes_of_list l)
  | [] => List.Perm.refl []
  | p :: ps => by
      rw [get_all_msg_parts_of_list, mime_tree_nodes_of_list]
      exact List.Perm.append (get_all_perm_nodes p) (get_all_list_perm_nodes ps)

end

theorem getLast_append_singleton {γ : Type} (l : List γ) (a : γ) :
    (l ++ [a]).getLast? = some a := by
  induction l with
  | nil => rfl
  | cons x xs ih =>
    cases hx : xs ++ [a] with
    | nil => exact absurd hx (by simp)
    | cons y t =>
      rw [List.cons_append, hx, List.getLast?_cons_cons, ← hx, ih]

theorem get_all_getLast (p : MessagePart) :
    (get_all_msg_parts_recursive p).getLast? = some p := by
  cases p with
  | mk i m h b parts =>
    rw [get_all_msg_parts_recursive, getLast_append_singleton]

/-- C8: for every Message, the flattened `message_parts` list contains exactly
the nodes of its payload MIME tree (a permutation of the pre-order node list),
in the order described by the claim — for each child of a node, in child order,
all parts accumulated from that child subtree, followed by the node itself —
and the root payload node comes last. -/
theorem c8_message_parts_flattening (msg : Message) :
    msg.message_parts = claim_parts_order msg.payload
  ∧ (msg.message_parts).Perm (mime_tree_nodes msg.payload)
  ∧ (msg.message_parts).getLast? = some msg.payload :=
  ⟨get_all_eq_claim msg.payload, get_all_perm_nodes msg.payload, get_all_getLast msg.payload⟩

/-! ## Base64 decoding (utils.py Decoder.decode_base64 over base64.b64decode) -/

/-- The value of a standard base64 alphabet character, `none` outside the
alphabet. -/
def base64CharValue (c : Char) : Option Nat :=
  if 65 ≤ c.toNat ∧ c.toNat ≤ 90 then some (c.toNat - 65)
  else if 97 ≤ c.toNat ∧ c.toNat ≤ 122 then some (c.toNat - 97 + 26)
  else if 48 ≤ c.toNat ∧ c.toNat ≤ 57 then some (c.toNat - 48 + 52)
  else if c = Char.ofNat 43 then some 62
  else if c = Char.ofNat 47 then some 63
  else none

/-- Pack a list of six-bit values into bytes (the final group of two or three
sextets yields one or two bytes). -/
def sextetsToBytes : List Nat → List Nat
  | a :: b :: c :: d :: rest =>
      (a * 4 + b / 16) :: ((b % 16) * 16 + c / 4) :: ((c % 4) * 64 + d)
        :: sextetsToBytes rest
  | [a, b, c] => [a * 4 + b / 16, (b % 16) * 16 + c / 4]
  | [a, b] => [a * 4 + b / 16]
  | _ => []

def hexDigitChar (n : Nat) : Char :=
  if n < 10 then Char.ofNat (48 + n) else Char.ofNat (87 + n)

/-- The repr of one byte inside a Python bytes literal delimited by single
quotes: backslash and the quote are escaped, tab / newline / carriage return
use their short escapes, other printable ASCII is kept, the rest becomes a hex
escape. -/
def pyByteRepr (n : Nat) : String :=
  if n = 92 then String.singleton (Char.ofNat 92) ++ String.singleton (Char.ofNat 92)
  else if n = 39 then String.singleton (Char.ofNat 92) ++ String.singleton (Char.ofNat 39)
  else if n = 9 then String.singleton (Char.ofNat 92) ++ "t"
  else if n = 10 then String.singleton (Char.ofNat 92) ++ "n"
  else if n = 13 then String.singleton (Char.ofNat 92) ++ "r"
  else if 32 ≤ n ∧ n ≤ 126 then String.singleton (Char.ofNat n)
  else String.singleton (Char.ofNat 92) ++ "x"
    ++ String.singleton (hexDigitChar (n / 16)) ++ String.singleton (hexDigitChar (n % 16))

/-- Python `str(bytes)`: the bytes repr `b` + quote + escaped bytes + quote. -/
def pyBytesStr (bytes : List Nat) : String :=
  let q := String.singleton (Char.ofNat 39)
  "b" ++ q ++ String.join (bytes.map pyByteRepr) ++ q

/-- The two failure modes of CPython `base64.b64decode` on a str argument:
`_bytes_from_decode_data` first ascii-encodes the string and raises a plain
ValueError (not a binascii.Error) for non-ASCII input; only then does the
lenient decode run, whose padding check raises binascii.Error. -/
inductive B64DecodeError where
  | nonAsciiValueError
  | binasciiError
deriving DecidableEq

/-- Model of `base64.b64decode` on a str in its default lenient mode: a
non-ASCII argument raises the plain ValueError; otherwise characters outside
the base64 alphabet other than the padding character are discarded, the kept
length must be a multiple of four (otherwise binascii.Error), and the sextets
before the first padding character are decoded. -/
def b64decode (s : String) : Except B64DecodeError (List Nat) :=
  if s.data.all (fun c => c.toNat < 128) then
    let kept := s.data.filter (fun c => (base64CharValue c).isSome || c = Char.ofNat 61)
    if kept.length % 4 = 0 then
      Except.ok (sextetsToBytes
        ((kept.takeWhile (fun c => c ≠ Char.ofNat 61)).filterMap base64CharValue))
    else Except.error B64DecodeError.binasciiError
  else Except.error B64DecodeError.nonAsciiValueError

/-- utils.py `Decoder.decode_base64`: `str(base64.b64decode(encoded))`; the
error carries which exception propagates. -/
def decode_base64 (encoded : String) : Except B64DecodeError String :=
  (b64decode encoded).map pyBytesStr

/-! ## Conversion pipeline (gmail_domain.py GmailMessage, gmail_api.py
ApiConversionContext) -/

/-- gmail_domain.py `GmailMessageBodyPart`. -/
structure GmailMessageBodyPart where
  body_data : String
  mime_type : Option String
deriving DecidableEq

/-- gmail_domain.py `MessagePartDescriptor`: the current message and message
part registered in the conversion context, plus the produced body part. -/
structure MessagePartDescriptor where
  message : Option Message
  message_part : Option MessagePart
  gmail_msg_body_part : GmailMessageBodyPart

/-- The conversion-relevant state of gmail_api.py `ApiConversionContext`. -/
structure ApiConversionContext where
  current_message : Option Message
  current_message_part : Option MessagePart
  decode_errors : List MessagePartDescriptor
  empty_bodies : List MessagePartDescriptor

/-- `ApiConversionContext.register_current_message_part`. -/
def register_current_message_part (ctx : ApiConversionContext)
    (message_part : MessagePart) : ApiConversionContext :=
  { ctx with current_message_part := some message_part }

/-- `ApiConversionContext.report_decode_error` (the log line is not modelled). -/
def report_decode_error (ctx : ApiConversionContext)
    (gmail_msg_body_part : GmailMessageBodyPart) : ApiConversionContext :=
  let descriptor : MessagePartDescriptor :=
    ⟨ctx.current_message, ctx.current_message_part, gmail_msg_body_part⟩
  { ctx with decode_errors := ctx.decode_errors ++ [descriptor] }

/-- `ApiConversionContext.report_empty_body` (the log line is not modelled). -/
def report_empty_body (ctx : ApiConversionContext)
    (gmail_msg_body_part : GmailMessageBodyPart) : ApiConversionContext :=
  let descriptor : MessagePartDescriptor :=
    ⟨ctx.current_message, ctx.current_message_part, gmail_msg_body_part⟩
  { ctx with empty_bodies := ctx.empty_bodies ++ [descriptor] }

/-- gmail_domain.py `GmailMessage._decode_base64_encoded_body`: decoded body,
success flag, empty flag. Falsy body data (absent or empty string) yields the
empty string with the empty flag set; the `except binascii.Error` handler keeps
the original data and clears the success flag, but the plain ValueError raised
for non-ASCII data is not caught and propagates. -/
def decode_base64_encoded_body (message_part : MessagePart) :
    Except String (String × Bool × Bool) :=
  match message_part.body.data with
  | none => Except.ok ("", true, true)
  | some s =>
      if s = "" then Except.ok ("", true, true)
      else
        match decode_base64 s with
        | Except.ok decoded => Except.ok (decoded, true, false)
        | Except.error B64DecodeError.binasciiError => Except.ok (s, false, false)
        | Except.error B64DecodeError.nonAsciiValueError =>
            Except.error "ValueError: string argument should contain only ASCII characters"

/-- The conversion-context updates the loop applies for one message part:
register it as current, then report a decode error or an empty body according
to the decode flags. -/
def convert_part_context (ctx : ApiConversionContext) (message_part : MessagePart)
    (r : String × Bool × Bool) : ApiConversionContext :=
  let ctx1 := register_current_message_part ctx message_part
  let gmail_msg_body_part : GmailMessageBodyPart := ⟨r.1, message_part.mime_type⟩
  let ctx2 := if r.2.1 then ctx1 else report_decode_error ctx1 gmail_msg_body_part
  if r.2.2 then report_empty_body ctx2 gmail_msg_body_part else ctx2

/-- gmail_domain.py `GmailMessage._convert_message_parts`: convert every part in
order, registering the current part with the conversion context and reporting a
decode error or an empty body for it; one `GmailMessageBodyPart` is produced per
part. An uncaught exception from the body decode (the non-ASCII ValueError)
propagates and aborts the whole loop. -/
def convert_message_parts (ctx : ApiConversionContext) :
    List MessagePart → Except String (List GmailMessageBodyPart × ApiConversionContext)
  | [] => Except.ok ([], ctx)
  | message_part :: rest =>
      match decode_base64_encoded_body message_part with
      | Except.error e => Except.error e
      | Except.ok r =>
          match convert_message_parts (convert_part_context ctx message_part r) rest with
          | Except.error e => Except.error e
          | Except.ok next =>
              Except.ok ((⟨r.1, message_part.mime_type⟩ : GmailMessageBodyPart) :: next.1,
                next.2)

theorem convert_message_parts_append (l1 l2 : List MessagePart) :
    ∀ ctx : ApiConversionContext,
    convert_message_parts ctx (l1 ++ l2)
      = match convert_message_parts ctx l1 with
        | Except.error e => Except.error e
        | Except.ok res1 =>
            match convert_message_parts res1.2 l2 with
            | Except.error e => Except.error e
            | Except.ok res2 => Except.ok (res1.1 ++ res2.1, res2.2) := by
  induction l1 with
  | nil =>
    intro ctx
    cases h : convert_message_parts ctx l2 with
    | error e => simp [convert_message_parts, h]
    | ok res => simp [convert_message_parts, h]
  | cons p ps ih =>
    intro ctx
    cases hd : decode_base64_encoded_body p with
    | error e => simp [convert_message_parts, hd]
    | ok r =>
      simp only [List.cons_append, convert_message_parts, hd, List.append_eq]
      rw [ih]
      cases h2 : convert_message_parts (convert_part_context ctx p r) ps with
      | error e => simp
      | ok next =>
        cases h3 : convert_message_parts next.2 l2 with
        | error e => simp [h3]
        | ok res2 => simp [h3]

/-- Composing successful conversions of two list segments. -/
theorem convert_message_parts_append_of_ok (l1 l2 : List MessagePart)
    (ctx : ApiConversionContext)
    (res1 res2 : List GmailMessageBodyPart × ApiConversionContext)
    (h1 : convert_message_parts ctx l1 = Except.ok res1)
    (h2 : convert_message_parts res1.2 l2 = Except.ok res2) :
    convert_message_parts ctx (l1 ++ l2) = Except.ok (res1.1 ++ res2.1, res2.2) := by
  rw [convert_message_parts_append l1 l2 ctx, h1]
  simp [h2]

/-- Splitting a successful conversion of an appended list. -/
theorem convert_message_parts_append_ok (l1 l2 : List MessagePart) :
    ∀ (ctx : ApiConversionContext) (res : List GmailMessageBodyPart × ApiConversionContext),
    convert_message_parts ctx (l1 ++ l2) = Except.ok res →
    ∃ res1 res2, convert_message_parts ctx l1 = Except.ok res1
      ∧ convert_message_parts res1.2 l2 = Except.ok res2
      ∧ res = (res1.1 ++ res2.1, res2.2) := by
  induction l1 with
  | nil =>
    intro ctx res h
    exact ⟨([], ctx), res, rfl, h, by simp⟩
  | cons p ps ih =>
    intro ctx res h
    cases hd : decode_base64_encoded_body p with
    | error e => simp [convert_message_parts, hd] at h
    | ok r =>
      simp only [List.cons_append, convert_message_parts, hd, List.append_eq] at h
      cases h2 : convert_message_parts (convert_part_context ctx p r) (ps ++ l2) with
      | error e => rw [h2] at h; simp at h
      | ok nextRes =>
        rw [h2] at h
        simp only [Except.ok.injEq] at h
        obtain ⟨res1, res2, ha, hb, hc⟩ := ih (convert_part_context ctx p r) nextRes h2
        refine ⟨((⟨r.1, p.mime_type⟩ : GmailMessageBodyPart) :: res1.1, res1.2), res2,
          ?_, hb, ?_⟩
        · simp [convert_message_parts, hd, ha]
        · rw [← h, hc]
          simp

theorem convert_message_parts_length (l : List MessagePart) :
    ∀ (ctx : ApiConversionContext) res,
      convert_message_parts ctx l = Except.ok res → res.1.length = l.length := by
  induction l with
  | nil =>
    intro ctx res h
    simp only [convert_message_parts, Except.ok.injEq] at h
    rw [← h]
    rfl
  | cons p ps ih =>
    intro ctx res h
    cases hd : decode_base64_encoded_body p with
    | error e => simp [convert_message_parts, hd] at h
    | ok r =>
      simp only [convert_message_parts, hd] at h
      cases h2 : convert_message_parts (convert_part_context ctx p r) ps with
      | error e => rw [h2] at h; simp at h
      | ok next =>
        rw [h2] at h
        simp only [Except.ok.injEq] at h
        rw [← h]
        simp [ih _ _ h2]

theorem get?_append_length {γ : Type} (l1 l2 : List γ) (a : γ) :
    (l1 ++ a :: l2).get? l1.length = some a := by
  induction l1 with
  | nil => rfl
  | cons x xs ih => simpa using ih

/-- An empty conversion context. -/
def emptyConversionContext : ApiConversionContext := ⟨none, none, [], []⟩

/-- C7: a message part with empty (or absent) body data produces a
`GmailMessageBodyPart` with empty-string content, records an empty-body
descriptor in the conversion context, and records no decode error for it; the
part raises nothing (a successful prefix stays successful when it is appended)
and the rest of the batch continues, with its output in place in every
successful whole-batch result. -/
theorem c7_empty_body_detection (ctx : ApiConversionContext) (pre suf : List MessagePart)
    (mp : MessagePart)
    (hdata : mp.body.data = none ∨ mp.body.data = some "") :
    (∀ c : ApiConversionContext,
        convert_message_parts c [mp]
          = Except.ok ([⟨"", mp.mime_type⟩],
              ⟨c.current_message, some mp,
               c.decode_errors,
               c.empty_bodies ++ [⟨c.current_message, some mp, ⟨"", mp.mime_type⟩⟩]⟩))
  ∧ (∀ res1, convert_message_parts ctx pre = Except.ok res1 →
        convert_message_parts ctx (pre ++ [mp])
          = Except.ok (res1.1 ++ [⟨"", mp.mime_type⟩],
              ⟨res1.2.current_message, some mp,
               res1.2.decode_errors,
               res1.2.empty_bodies ++
                 [⟨res1.2.current_message, some mp, ⟨"", mp.mime_type⟩⟩]⟩))
  ∧ (∀ res, convert_message_parts ctx (pre ++ mp :: suf) = Except.ok res →
        res.1.length = pre.length + 1 + suf.length
      ∧ res.1.get? pre.length = some ⟨"", mp.mime_type⟩) := by
  have hdec : decode_base64_encoded_body mp = Except.ok ("", true, true) := by
    rcases hdata with h | h
    · rw [decode_base64_encoded_body, h]
    · rw [decode_base64_encoded_body, h]
      simp
  have hstep : ∀ c : ApiConversionContext,
      convert_message_parts c [mp]
        = Except.ok ([⟨"", mp.mime_type⟩],
            ⟨c.current_message, some mp,
             c.decode_errors,
             c.empty_bodies ++ [⟨c.current_message, some mp, ⟨"", mp.mime_type⟩⟩]⟩) := by
    intro c
    simp [convert_message_parts, hdec, convert_part_context,
      register_current_message_part, report_empty_body]
  refine ⟨hstep, ?_, ?_⟩
  · intro res1 h1
    exact convert_message_parts_append_of_ok pre [mp] ctx res1 _ h1 (hstep res1.2)
  · intro res h
    obtain ⟨res1, resMS, hpre, hms, hres⟩ :=
      convert_message_parts_append_ok pre (mp :: suf) ctx res h
    obtain ⟨resM, res2, hm, hsuf, hresMS⟩ :=
      convert_message_parts_append_ok [mp] suf res1.2 resMS hms
    rw [hstep res1.2] at hm
    simp only [Except.ok.injEq] at hm
    have h1len := convert_message_parts_length pre ctx res1 hpre
    have h2len := convert_message_parts_length suf resM.2 res2 hsuf
    subst hres hresMS
    rw [← hm]
    constructor
    · simp [List.length_append, h1len, h2len]
      omega
    · rw [← h1len]
      exact get?_append_length _ _ _

/-- The message part of the C7 witness: empty body data. -/
def c7Part : MessagePart :=
  MessagePart.mk none (some "text/plain") [] ⟨some "", none, none⟩ []

/-- Witness for `c7_empty_body_detection` at body data equal to the empty
string. -/
theorem c7_empty_body_detection_witness :
    convert_message_parts emptyConversionContext [c7Part]
      = Except.ok ([⟨"", some "text/plain"⟩],
          ⟨none, some c7Part,
           [],
           [⟨none, some c7Part, ⟨"", some "text/plain"⟩⟩]⟩) :=
  (c7_empty_body_detection emptyConversionContext [] [] c7Part
      (Or.inr rfl)).1 emptyConversionContext


/-! ## C9: configuration validation at construction (gmail_cache.py
CachingStrategy.__init__ / FileSystemEmailThreadCacheStrategy.__init__) -/

/-- Externally observable construction-time events: directory creation on disk
(`FileUtils.ensure_dir_created`) and the cache-filling directory scan
(`fill_cache`). The constructor performs no network activity at all. -/
inductive InitEvent where
  | ensure_dir_created (path : String)
  | fill_cache_scan (threads_dir : String)
deriving DecidableEq

/-- utils.py `CommonUtils.convert_email_address_to_dirname`:
`user_email.replace("@", "_").replace(".", "_")`; both patterns are single
characters, so this is a character-level substitution. -/
def convert_email_address_to_dirname (user_email : String) : String :=
  String.mk (user_email.data.map (fun c =>
    if c = Char.ofNat 64 then Char.ofNat 95
    else if c = Char.ofNat 46 then Char.ofNat 95
    else c))

/-- Python falsiness of an optional string setting (missing or empty). -/
def strFalsy : Option String → Bool
  | none => true
  | some s => s == ""

/-- gmail_cache.py `CachingStrategy.__init__` validation: raises for a falsy
output basedir, then for a falsy project name or user email. -/
def caching_strategy_validate (output_basedir project_name user_email : Option String) :
    Except String Unit :=
  if strFalsy output_basedir then Except.error "Must define output basedir!"
  else if strFalsy project_name || strFalsy user_email then
    Except.error "Both project name and user email should be set."
  else Except.ok ()

/-- gmail_cache.py `FileSystemEmailThreadCacheStrategy.__init__`, as the
sequence of externally observable events plus the outcome. A `none` setting is
a missing (Python None) value: converting a None email raises AttributeError
and joining a None basedir raises TypeError, both before any disk activity;
with both present the constructor creates the threads directory on disk first,
then runs the base-class validation, and only on success performs the
fill_cache scan. -/
def file_system_strategy_init (output_basedir project_name user_email : Option String) :
    List InitEvent × Except String Unit :=
  match user_email with
  | none => ([], Except.error "AttributeError: NoneType has no attribute replace")
  | some email =>
      match output_basedir with
      | none => ([], Except.error "TypeError: expected str, not NoneType")
      | some base =>
          let user_email_converted := convert_email_address_to_dirname email
          let project_acct_basedir := joinPath base user_email_converted
          let threads_dir := joinPath project_acct_basedir "threads"
          match caching_strategy_validate (some base) project_name (some email) with
          | Except.error e => ([InitEvent.ensure_dir_created threads_dir], Except.error e)
          | Except.ok _ =>
              ([InitEvent.ensure_dir_created threads_dir,
                InitEvent.fill_cache_scan threads_dir], Except.ok ())

/-- C9 counterexample: constructing the filesystem strategy with a missing
project name does raise, but only after the threads directory was already
created on disk, so the claimed "before any ... disk activity is performed"
is false at this input. -/
theorem c9_counterexample_disk_activity_before_error :
    (file_system_strategy_init (some "/base") none (some "a@b.c")).2
        = Except.error "Both project name and user email should be set."
  ∧ InitEvent.ensure_dir_created "/base/a_b_c/threads"
      ∈ (file_system_strategy_init (some "/base") none (some "a@b.c")).1 := by
  constructor
  · rfl
  · show InitEvent.ensure_dir_created "/base/a_b_c/threads"
      ∈ [InitEvent.ensure_dir_created "/base/a_b_c/threads"]
    exact List.mem_singleton.mpr rfl

/-- C9 as amended: a missing required setting (output basedir, project name or
user email, whether Python None or empty) makes construction fail with an
error raised eagerly — before any network activity (the constructor performs
none) and before the cache-fill disk scan, which never runs — though the
filesystem strategy may already have created its threads directory on disk
before the validation fires. -/
theorem c9_missing_setting_raises_eagerly (output_basedir project_name user_email :
    Option String)
    (hmissing : strFalsy output_basedir = true ∨ strFalsy project_name = true
      ∨ strFalsy user_email = true) :
    (exceptIsOk (file_system_strategy_init output_basedir project_name user_email).2
        = false)
  ∧ (∀ e ∈ (file_system_strategy_init output_basedir project_name user_email).1,
      ∀ d, e ≠ InitEvent.fill_cache_scan d) := by
  cases user_email with
  | none => exact ⟨rfl, by intro e he d; simp [file_system_strategy_init] at he⟩
  | some email =>
    cases output_basedir with
    | none => exact ⟨rfl, by intro e he d; simp [file_system_strategy_init] at he⟩
    | some base =>
      have hval : ∃ msg, caching_strategy_validate (some base) project_name (some email)
          = Except.error msg := by
        by_cases hb : strFalsy (some base) = true
        · exact ⟨"Must define output basedir!", by simp [caching_strategy_validate, hb]⟩
        · have hb' : strFalsy (some base) = false := by
            cases h : strFalsy (some base)
            · rfl
            · exact absurd h hb
          rcases hmissing with h | h | h
          · exact absurd h hb
          · exact ⟨"Both project name and user email should be set.",
              by simp [caching_strategy_validate, hb', h]⟩
          · exact ⟨"Both project name and user email should be set.",
              by simp [caching_strategy_validate, hb', h]⟩
      obtain ⟨msg, hmsg⟩ := hval
      constructor
      · simp [file_system_strategy_init, hmsg, exceptIsOk]
      · intro e he d
        simp [file_system_strategy_init, hmsg] at he
        rw [he]
        intro hcontra
        cases hcontra

/-- Witness for `c9_missing_setting_raises_eagerly` at the counterexample
input (missing project name). -/
theorem c9_missing_setting_raises_eagerly_witness :
    exceptIsOk (file_system_strategy_init (some "/base") none (some "a@b.c")).2 = false :=
  (c9_missing_setting_raises_eagerly (some "/base") none (some "a@b.c")
    (Or.inr (Or.inl rfl))).1

/-! ## C10: the accepted-format guard references a nonexistent enum member
(gmail_api.py _request_thread_or_load_from_cache, gmail_domain.py
ThreadQueryFormat) -/

/-- gmail_domain.py `ThreadQueryFormat`: its only members are FULL, METADATA
and MINIMAL. -/
inductive ThreadQueryFormat where
  | FULL
  | METADATA
  | MINIMAL
deriving DecidableEq

/-- Python attribute lookup `ThreadQueryFormat.<name>`; `none` models the
AttributeError raised for a name that is not a member of the enumeration. -/
def threadQueryFormatAttr : String → Option ThreadQueryFormat
  | "FULL" => some ThreadQueryFormat.FULL
  | "METADATA" => some ThreadQueryFormat.METADATA
  | "MINIMAL" => some ThreadQueryFormat.MINIMAL
  | _ => none

/-- gmail_api.py `GmailWrapper._request_thread_or_load_from_cache`: the
accepted-format tuple `(ThreadQueryFormat.FULL, ThreadQueryFormat.RAW)` is
evaluated first; were both attribute lookups to succeed, the guard would
compare the context format and either raise the intended ValueError or proceed
with the cache-or-fetch body. -/
def request_thread_or_load_from_cache {α : Type} (truthy : α → Bool)
    (fetch_minimal : Unit → List String)
    (process_messages :
      CacheResultItems α → List String → Except String (CacheResultItems α))
    (fetch_full : Unit → α)
    (cache_state : CacheResultItems α) (thread_id : String)
    (ctx_format : Option ThreadQueryFormat) :
    Except String (CacheResultItems α × α × Bool) :=
  match threadQueryFormatAttr "FULL", threadQueryFormatAttr "RAW" with
  | some fmt_full, some fmt_raw =>
      if ctx_format = some fmt_full ∨ ctx_format = some fmt_raw then
        request_thread_or_load_from_cache_body truthy fetch_minimal process_messages
          fetch_full cache_state thread_id
      else
        Except.error "ValueError: Expecting Gmail query format to be in accepted formats"
  | _, _ =>
      Except.error "AttributeError: type object ThreadQueryFormat has no attribute RAW"

/-- C10: RAW is not a member of ThreadQueryFormat (whose only members are FULL,
METADATA and MINIMAL), and since `_request_thread_or_load_from_cache` evaluates
the accepted-format tuple on every invocation, every call fails with the
attribute error before any cache check or live fetch: the result is that error
for every cache state, context format and fetch oracle. -/
theorem c10_format_guard_attribute_error :
    threadQueryFormatAttr "RAW" = none
  ∧ (∀ f : ThreadQueryFormat, f = ThreadQueryFormat.FULL ∨ f = ThreadQueryFormat.METADATA
      ∨ f = ThreadQueryFormat.MINIMAL)
  ∧ (∀ (α : Type) (truthy : α → Bool) (fetch_minimal : Unit → List String)
      (process_messages :
        CacheResultItems α → List String → Except String (CacheResultItems α))
      (fetch_full : Unit → α) (cache_state : CacheResultItems α) (thread_id : String)
      (ctx_format : Option ThreadQueryFormat),
      request_thread_or_load_from_cache truthy fetch_minimal process_messages fetch_full
          cache_state thread_id ctx_format
        = Except.error
            "AttributeError: type object ThreadQueryFormat has no attribute RAW") := by
  refine ⟨rfl, ?_, ?_⟩
  · intro f
    cases f with
    | FULL => exact Or.inl rfl
    | METADATA => exact Or.inr (Or.inl rfl)
    | MINIMAL => exact Or.inr (Or.inr rfl)
  · intro α truthy fetch_minimal process_messages fetch_full cache_state thread_id ctx_format
    rfl

end GmailSpec
